import Mathlib

/-!
Verification development for the TWIC checkpoint credential scripts.

The embedding below models the four Python source files:

* `src/checkpoint/src/rfid.py` — `write_rfid(id)` and `read_rfid()`, each a
  polling loop with a hardcoded 30-second cutoff, a `continue` on a probe
  exception, and a `try/except/finally` that runs `gpio.cleanup()` on every
  exit path.
* `src/checkpoint/hw/rfid.py` — single-shot `write_rfid()` (writes a freshly
  generated 5-character id) and `read_rfid()`, both with `try/except/finally`.
* `src/checkpoint/hw/rfid_test.py` — single-shot `read_rfid()` that prints
  `data.strip()`.
* `src/checkpoint/src/fpm.py` — `get_fp()` (verify) and `enroll_fp(fp_id)`
  (two-capture enrollment), with unbounded `while get_image() != OK: pass`
  polling loops.

Hardware nondeterminism (what `SimpleMFRC522.read()` and the fingerprint
sensor answer on each call) is threaded in as explicit oracles: a probe
trace for the token reader and per-step status fields for the sensor.  A
function that, on the given trace, would still be inside its polling loop
when the trace runs out returns `none`; `some` results describe completed
invocations.
-/

/-- Outcome of one `r.read()` probe in the token polling loops of
`src/checkpoint/src/rfid.py`: the call raised an exception (`err`), returned
a pair whose id is `None` (`absent`), or detected a tag (`present`). -/
inductive Probe
  | err
  | absent
  | present
deriving DecidableEq

/-- Loop body of `write_rfid(id)` in `src/checkpoint/src/rfid.py`.  Each
trace entry `(t, p)` gives the elapsed time `time.time() - start_time` at the
top of one iteration and the result of that iteration's `r.read()` probe.
The source checks `if time.time() - start_time > 30: return False` before
probing; an exception from `r.read()` hits `continue`; a pair with id `None`
sleeps 0.5 s and loops (the sleep only advances the clock, which the trace
already records); a detected tag triggers `r.write(str(id))`, which either
succeeds (`writeOk = true`, the tag now stores the decimal string of `id`,
return `True`) or raises (`writeOk = false`), in which case the outer
`except` will take over.  The result is the value produced inside the `try`
(`Except.error` for an uncaught exception) together with the tag's data
afterwards; `none` means the trace ended with the loop still polling. -/
def write_body (id : Nat) (writeOk : Bool) (tag : String) :
    List (Nat × Probe) → Option (Except String Bool × String)
  | [] => none
  | (t, p) :: rest =>
    if t > 30 then some (Except.ok false, tag)
    else
      match p with
      | Probe.err => write_body id writeOk tag rest
      | Probe.absent => write_body id writeOk tag rest
      | Probe.present =>
          if writeOk then some (Except.ok true, toString id)
          else some (Except.error "write raised", tag)

/-- `write_rfid(id)` of `src/checkpoint/src/rfid.py`: the loop body wrapped
in the function's `try/except/finally`.  The `except Exception` clause turns
any uncaught exception into `return False`; the `finally` clause runs
`gpio.cleanup()` exactly once on every path, which the last component
counts.  Result fields: the Python return value (`True`/`False`), the tag's
data after the call, and the number of cleanups performed. -/
def write_rfid (id : Nat) (writeOk : Bool) (tag : String)
    (trace : List (Nat × Probe)) : Option (Bool × String × Nat) :=
  (write_body id writeOk tag trace).map
    (fun r => ((match r.1 with | Except.ok b => b | Except.error _ => false), r.2, 1))

/-- Loop body of `read_rfid()` in `src/checkpoint/src/rfid.py`, against a tag
currently storing `tag`.  Timeout check first (`return None` after 30 s);
a probe exception hits `continue`; id `None` sleeps and loops; a detected
tag returns the tag's stored data verbatim (`return data`). -/
def read_body (tag : String) :
    List (Nat × Probe) → Option (Except String (Option String))
  | [] => none
  | (t, p) :: rest =>
    if t > 30 then some (Except.ok none)
    else
      match p with
      | Probe.err => read_body tag rest
      | Probe.absent => read_body tag rest
      | Probe.present => some (Except.ok (some tag))

/-- `read_rfid()` of `src/checkpoint/src/rfid.py`: loop body wrapped in
`try/except/finally`; the `except` clause returns `None`, the `finally`
clause performs one cleanup on every path.  Result: the Python return value
(`data` or `None`) and the cleanup count. -/
def read_rfid (tag : String) (trace : List (Nat × Probe)) :
    Option (Option String × Nat) :=
  (read_body tag trace).map
    (fun r => ((match r with | Except.ok v => v | Except.error _ => none), 1))

/-- Character pool of `id_generator` in `src/checkpoint/hw/rfid.py`:
`string.ascii_uppercase + string.digits`. -/
def idChars : List Char := "ABCDEFGHIJKLMNOPQRSTUVWXYZ0123456789".toList

/-- `id_generator(size=5, chars=...)` of `src/checkpoint/hw/rfid.py`:
`"".join(random.choice(chars) for _ in range(size))` at the default
`size = 5`.  The randomness of `random.choice` is an oracle `pick` giving,
for each of the five draws, the index chosen in the pool. -/
def id_generator (pick : Nat → Fin idChars.length) : String :=
  String.mk ((List.range 5).map (fun i => idChars.get (pick i)))

/-- `write_rfid()` of `src/checkpoint/hw/rfid.py`: generates an id with
`id_generator()` and writes it in one shot inside `try/except/finally`
(`writeOk = false` models `r.write` raising; the `except` clause only
prints).  Result: the data written to the tag, if any, and the cleanup
count from the `finally` clause. -/
def hw_write_rfid (pick : Nat → Fin idChars.length) (writeOk : Bool) :
    Option String × Nat :=
  (if writeOk then some (id_generator pick) else none, 1)

/-- Python's `str.strip()` with no argument, as used by
`src/checkpoint/hw/rfid_test.py`: remove leading and trailing whitespace
(modelled over the ASCII whitespace characters, on which Python and
`Char.isWhitespace` agree). -/
def strip (s : String) : String :=
  String.mk
    (((s.toList.dropWhile Char.isWhitespace).reverse.dropWhile
        Char.isWhitespace).reverse)

/-- `read_rfid()` of `src/checkpoint/hw/rfid_test.py`, against a tag storing
`tag`: a single `r.read()` (`probeOk = false` models it raising), then
`print(data.strip())` — the payload is printed with surrounding whitespace
stripped — or `print("ERROR")` from the `except` clause.  Result: the line
printed and the cleanup count from the `finally` clause. -/
def read_rfid_test (tag : String) (probeOk : Bool) : String × Nat :=
  if probeOk then (strip tag, 1) else ("ERROR", 1)

/-- `write(id, timeout)` then `read(timeout)` against the same token:
`write_rfid` runs first (with `r.write` succeeding) on `wtr`, and if it
returns `True` the tag's new data is what `read_rfid` then reads on `rtr`.
`none` if the write did not complete or did not return `True`. -/
def write_then_read (id : Nat) (tag0 : String)
    (wtr rtr : List (Nat × Probe)) : Option (Option String) :=
  match write_rfid id true tag0 wtr with
  | some (true, tag1, _) => (read_rfid tag1 rtr).map (fun r => r.1)
  | _ => none

/-- Status code of one fingerprint-sensor call in `src/checkpoint/src/fpm.py`:
`adafruit_fingerprint` returns `OK` or some error code; the scripts only
ever compare against `OK`. -/
inductive Status
  | ok
  | err
deriving DecidableEq

/-- Image-capture polling loop `while fpm.get_image() != adafp.OK: pass` of
`src/checkpoint/src/fpm.py`, run against the listed successive `get_image`
results: `true` once a probe returns `OK`, `false` if the trace runs out
with the loop still spinning.  The source loop has no timeout check and no
sleep: it exits only on an `OK` probe. -/
def captureLoop : List Status → Bool
  | [] => false
  | s :: rest => if s = Status.ok then true else captureLoop rest

/-- Sensor oracle for one `enroll_fp` run: the `get_image` traces of the two
capture stages, the `image_2_tz(1)` / `image_2_tz(2)` results, and the
`create_model()` / `store_model(fp_id)` results. -/
structure FpSensor where
  img1 : List Status
  conv1 : Status
  img2 : List Status
  conv2 : Status
  create : Status
  store : Status

/-- Observable outcome of a completed `enroll_fp` call: the Python return
value (`fp_id` or `None`), the diagnostic lines printed on the way out
(operator-cue prompts omitted), and whether `store_model` was invoked. -/
structure EnrollRun where
  ret : Option Nat
  msgs : List String
  storeCalled : Bool
deriving DecidableEq

/-- `enroll_fp(fp_id)` of `src/checkpoint/src/fpm.py`, with the `for i in
range(1, 3)` loop unrolled: capture stage 1 (unbounded polling), convert to
buffer 1 — on failure print and `return` (`None`); the 2-second pause; stage
2 into buffer 2 likewise; then `create_model()` — failure prints "Template
did not match" and returns `None`; then `store_model(fp_id)` — `OK` prints
the registration line (the source's `print` lacks the `f` prefix, so the
braces are literal) and returns `fp_id`, anything else prints "Registration
failed" and falls off the end (`None`).  `none` if either capture loop is
still spinning when its trace runs out. -/
def enroll_fp (fp_id : Nat) (s : FpSensor) : Option EnrollRun :=
  if captureLoop s.img1 = false then none
  else if s.conv1 ≠ Status.ok then
    some ⟨none, ["Error processing finger Image"], false⟩
  else if captureLoop s.img2 = false then none
  else if s.conv2 ≠ Status.ok then
    some ⟨none, ["Error processing finger Image"], false⟩
  else if s.create ≠ Status.ok then
    some ⟨none, ["Template did not match"], false⟩
  else if s.store = Status.ok then
    some ⟨some fp_id, ["Template registered with ID: \x7bfp_id\x7d"], true⟩
  else
    some ⟨none, ["Registration failed"], true⟩

/-- Sensor oracle for one `get_fp` run: the `get_image` trace, the
`image_2_tz(1)` result, the `finger_search()` result, and the sensor's
`finger_id` / `confidence` attributes after a successful search. -/
structure VerifySensor where
  img : List Status
  conv : Status
  search : Status
  fingerId : Nat
  confidence : Nat

/-- `get_fp()` of `src/checkpoint/src/fpm.py`: unbounded capture polling,
then `image_2_tz(1)` — failure prints "Error coverting Image" (sic) and
returns `None`; then `finger_search()` — `OK` prints the match line with the
sensor's id and confidence and returns `fpm.finger_id`, anything else prints
"No Match Found" and falls off the end (`None`).  Result: the Python return
value and the diagnostic lines printed; `none` if the capture loop is still
spinning when its trace runs out. -/
def get_fp (s : VerifySensor) : Option (Option Nat × List String) :=
  if captureLoop s.img = false then none
  else if s.conv ≠ Status.ok then some (none, ["Error coverting Image"])
  else if s.search = Status.ok then
    some (some s.fingerId,
      ["Fingerprint Match! ID: " ++ toString s.fingerId ++ " with "
        ++ toString s.confidence ++ " confidence"])
  else some (none, ["No Match Found"])

/-- Claim C1: for every invocation of a token operation (write or read) and
for every outcome — success, timeout, or error — the device session is
released exactly once before the operation returns: the `gpio.cleanup()` in
the `finally` clause runs on every exit path of `write_rfid` and `read_rfid`
of `src/checkpoint/src/rfid.py` and of `write_rfid` of
`src/checkpoint/hw/rfid.py`, including when the underlying read or write
raises. -/
theorem token_ops_release_session_once (id : Nat) (writeOk : Bool)
    (tag : String) (wtr rtr : List (Nat × Probe))
    (pick : Nat → Fin idChars.length) (hwOk : Bool) :
    (∀ o, write_rfid id writeOk tag wtr = some o → o.2.2 = 1) ∧
    (∀ o, read_rfid tag rtr = some o → o.2 = 1) ∧
    (hw_write_rfid pick hwOk).2 = 1 := by
  refine ⟨?_, ?_, rfl⟩
  · intro o h
    cases hb : write_body id writeOk tag wtr with
    | none => simp [write_rfid, hb] at h
    | some r =>
        simp [write_rfid, hb] at h
        simp [← h]
  · intro o h
    cases hb : read_body tag rtr with
    | none => simp [read_rfid, hb] at h
    | some r =>
        simp [read_rfid, hb] at h
        simp [← h]

theorem token_ops_release_session_once_witness :
    ((true : Bool), ("7" : String), (1 : Nat)).2.2 = 1 ∧
    ((some "7" : Option String), (1 : Nat)).2 = 1 :=
  ⟨(token_ops_release_session_once 7 true "" [(1, Probe.present)] []
      (fun _ => ⟨0, by decide⟩) true).1 (true, "7", 1) (by decide),
   (token_ops_release_session_once 7 true "7" [] [(1, Probe.present)]
      (fun _ => ⟨0, by decide⟩) true).2.1 (some "7", 1) (by decide)⟩

/-- Claim C2, counterexample: neither token operation takes a timeout
parameter — the cutoff is the constant `30` hardcoded in the loop, so a tag
presented at 31 s is ignored no matter what bound the caller wanted
(first two conjuncts); and expiry is not a distinct `NotFound` outcome:
`write_rfid` returns `False` on timeout, the very value it returns when the
write raises (third conjunct equals the first's result). -/
theorem timeout_param_counterexample :
    write_rfid 7 true "" [(31, Probe.present)] = some (false, "", 1) ∧
    read_rfid "7" [(31, Probe.present)] = some (none, 1) ∧
    write_rfid 7 false "" [(1, Probe.present)] = some (false, "", 1) := by
  decide

/-- Claim C2, amended: both token operations bound their polling with a
fixed 30-second cutoff hardcoded in the function body rather than an
explicit timeout parameter; once elapsed time exceeds 30 s the next
iteration returns `False` (write) or `None` (read) regardless of the probe —
and `False` is the same value `write_rfid` returns on a non-transient error,
so expiry is not a distinct outcome at the return-value level. -/
theorem timeout_hardcoded (id : Nat) (writeOk : Bool) (tag : String)
    (t : Nat) (p : Probe) (rest : List (Nat × Probe)) (h : t > 30) :
    write_rfid id writeOk tag ((t, p) :: rest) = some (false, tag, 1) ∧
    read_rfid tag ((t, p) :: rest) = some (none, 1) := by
  constructor <;> simp [write_rfid, read_rfid, write_body, read_body, h]

theorem timeout_hardcoded_witness :
    write_rfid 9 true "D" [(31, Probe.absent)] = some (false, "D", 1) ∧
    read_rfid "D" [(31, Probe.absent)] = some (none, 1) :=
  timeout_hardcoded 9 true "D" 31 Probe.absent [] (by decide)

/-- Claim C3: a single transient read error during one probe iteration does
not abort the polling loop and never by itself decides the outcome: in both
`write_rfid` and `read_rfid` of `src/checkpoint/src/rfid.py` an iteration
whose `r.read()` raises (within the 30-second window) hits `continue`, and
the operation's result is exactly what the remaining probes produce —
`Success`, timeout, or error alike. -/
theorem transient_error_continues (id : Nat) (writeOk : Bool) (tag : String)
    (t : Nat) (rest : List (Nat × Probe)) (h : t ≤ 30) :
    write_rfid id writeOk tag ((t, Probe.err) :: rest)
      = write_rfid id writeOk tag rest ∧
    read_rfid tag ((t, Probe.err) :: rest) = read_rfid tag rest := by
  have h30 : ¬ t > 30 := by omega
  constructor <;> simp [write_rfid, read_rfid, write_body, read_body, h30]

theorem transient_error_continues_witness :
    write_rfid 5 true "" [(1, Probe.err), (2, Probe.present)]
      = write_rfid 5 true "" [(2, Probe.present)] ∧
    read_rfid "" [(1, Probe.err), (2, Probe.present)]
      = read_rfid "" [(2, Probe.present)] :=
  transient_error_continues 5 true "" 1 [(2, Probe.present)] (by decide)

/-- Claim C7: for every token identifier `id`, `write_rfid(id)` followed
immediately by `read_rfid()` on the same token, with a token present
throughout (a tag answers the first probe of each loop, within the
30-second window), returns the payload written — the decimal string
`str(id)` that `r.write(str(id))` stored, read back verbatim (the spec's
`TokenId` equality is byte/string equality of the stored identifier). -/
theorem write_read_roundtrip (id : Nat) (tag0 : String) (t1 t2 : Nat)
    (wrest rrest : List (Nat × Probe)) (h1 : t1 ≤ 30) (h2 : t2 ≤ 30) :
    write_then_read id tag0 ((t1, Probe.present) :: wrest)
      ((t2, Probe.present) :: rrest) = some (some (toString id)) := by
  have g1 : ¬ t1 > 30 := by omega
  have g2 : ¬ t2 > 30 := by omega
  simp [write_then_read, write_rfid, read_rfid, write_body, read_body, g1, g2]

theorem write_read_roundtrip_witness :
    write_then_read 42 "stale" [(1, Probe.present)] [(2, Probe.present)]
      = some (some "42") :=
  write_read_roundtrip 42 "stale" 1 2 [] [] (by decide) (by decide)

/-- Claim C9, counterexample: the read variant of
`src/checkpoint/hw/rfid_test.py` does not return the payload verbatim — it
prints `data.strip()`, so a tag storing `" X "` is reported as `"X"`. -/
theorem read_verbatim_counterexample :
    read_rfid_test " X " true = ("X", 1) ∧ (" X " : String) ≠ "X" := by
  decide

/-- Claim C9, amended: the service read (`read_rfid` of
`src/checkpoint/src/rfid.py`) returns the payload to the caller verbatim as
captured from the token, without transformation; the `hw/rfid_test.py`
variant, by contrast, strips surrounding whitespace from the payload before
printing it. -/
theorem read_verbatim_amended (tag : String) (t : Nat)
    (rest : List (Nat × Probe)) (h : t ≤ 30) :
    read_rfid tag ((t, Probe.present) :: rest) = some (some tag, 1) ∧
    read_rfid_test tag true = (strip tag, 1) := by
  have h30 : ¬ t > 30 := by omega
  exact ⟨by simp [read_rfid, read_body, h30], rfl⟩

theorem read_verbatim_amended_witness :
    read_rfid " X " [(1, Probe.present)] = some (some " X ", 1) ∧
    read_rfid_test " X " true = (strip " X ", 1) :=
  read_verbatim_amended " X " 1 [] (by decide)

/-- Claim C10: the engine-generated self-assigned token identifier —
`id_generator()` of `src/checkpoint/hw/rfid.py` at its default arguments —
is a string of exactly 5 characters, each drawn from the uppercase ASCII
letters A–Z or the digits 0–9, whatever `random.choice` picks. -/
theorem id_generator_charset (pick : Nat → Fin idChars.length) :
    (id_generator pick).length = 5 ∧
    (id_generator pick).toList.all (fun c => decide (c ∈ idChars)) = true := by
  constructor
  · show ((List.range 5).map (fun i => idChars.get (pick i))).length = 5
    simp
  · show ((List.range 5).map (fun i => idChars.get (pick i))).all _ = true
    simp only [List.all_eq_true, List.mem_map, decide_eq_true_eq]
    rintro c ⟨i, -, rfl⟩
    exact idChars.get_mem _ _

/-- Claim C4: in every completed `enroll_fp` run, `store_model` is invoked
only if both `image_2_tz` conversions and the sensor's `create_model` step
succeeded; and a first-stage conversion failure is surfaced to the caller —
the function returns `None` with the conversion diagnostic, rather than
silently proceeding. -/
theorem enroll_store_guarded (fp_id : Nat) (s : FpSensor) :
    (∀ r, enroll_fp fp_id s = some r → r.storeCalled = true →
      s.conv1 = Status.ok ∧ s.conv2 = Status.ok ∧ s.create = Status.ok) ∧
    (captureLoop s.img1 = true → s.conv1 ≠ Status.ok →
      enroll_fp fp_id s
        = some ⟨none, ["Error processing finger Image"], false⟩) := by
  obtain ⟨i1, c1, i2, c2, cr, st⟩ := s
  cases h1 : captureLoop i1 <;> cases h2 : captureLoop i2 <;>
    cases c1 <;> cases c2 <;> cases cr <;> cases st <;>
    simp_all [enroll_fp]

theorem enroll_store_guarded_witness :
    Status.ok = Status.ok ∧ Status.ok = Status.ok ∧ Status.ok = Status.ok :=
  (enroll_store_guarded 12 ⟨[Status.ok], Status.ok, [Status.ok], Status.ok,
      Status.ok, Status.ok⟩).1
    ⟨some 12, ["Template registered with ID: \x7bfp_id\x7d"], true⟩
    (by decide) rfl

/-- Claim C5: when both captures complete and convert, `enroll_fp` returns
the slot `fp_id` exactly when `create_model` and `store_model` both succeed;
when model creation (fusing the two buffered feature sets) fails it returns
`None` with the "Template did not match" diagnostic — never the slot — and
when storing the fused template fails it returns `None` with the
"Registration failed" diagnostic. -/
theorem enroll_outcomes (fp_id : Nat) (s : FpSensor)
    (h1 : captureLoop s.img1 = true) (h2 : captureLoop s.img2 = true)
    (hc1 : s.conv1 = Status.ok) (hc2 : s.conv2 = Status.ok) :
    (s.create = Status.ok → s.store = Status.ok →
      enroll_fp fp_id s
        = some ⟨some fp_id,
            ["Template registered with ID: \x7bfp_id\x7d"], true⟩) ∧
    (s.create ≠ Status.ok →
      enroll_fp fp_id s = some ⟨none, ["Template did not match"], false⟩ ∧
      ∀ r, enroll_fp fp_id s = some r → r.ret = none) ∧
    (s.create = Status.ok → s.store ≠ Status.ok →
      enroll_fp fp_id s = some ⟨none, ["Registration failed"], true⟩) := by
  obtain ⟨i1, c1, i2, c2, cr, st⟩ := s
  cases cr <;> cases st <;> simp_all [enroll_fp]

theorem enroll_outcomes_witness :
    enroll_fp 12 ⟨[Status.ok], Status.ok, [Status.ok], Status.ok,
        Status.err, Status.ok⟩
      = some ⟨none, ["Template did not match"], false⟩ :=
  ((enroll_outcomes 12 ⟨[Status.ok], Status.ok, [Status.ok], Status.ok,
      Status.err, Status.ok⟩ (by decide) (by decide) rfl rfl).2.1
    (by decide)).1

/-- Claim C6: `get_fp` captures one image, converts it, then asks the sensor
to search the stored templates: on a match it returns the matching slot with
the confidence surfaced in the match line, on no match it returns `None`
with "No Match Found", and on image-conversion failure it returns `None`
with "Error coverting Image" — so a no-match run and a conversion-failure
run have distinct observable outcomes. -/
theorem verify_outcomes (s : VerifySensor) (h : captureLoop s.img = true) :
    (s.conv = Status.ok → s.search = Status.ok →
      get_fp s = some (some s.fingerId,
        ["Fingerprint Match! ID: " ++ toString s.fingerId ++ " with "
          ++ toString s.confidence ++ " confidence"])) ∧
    (s.conv = Status.ok → s.search ≠ Status.ok →
      get_fp s = some (none, ["No Match Found"])) ∧
    (s.conv ≠ Status.ok → get_fp s = some (none, ["Error coverting Image"])) ∧
    (∀ s2 : VerifySensor, captureLoop s2.img = true →
      s.conv = Status.ok → s.search ≠ Status.ok → s2.conv ≠ Status.ok →
      get_fp s ≠ get_fp s2) := by
  obtain ⟨i, cv, sr, fid, cnf⟩ := s
  refine ⟨?_, ?_, ?_, ?_⟩
  · intro hcv hsr
    simp_all [get_fp]
  · intro hcv hsr
    cases sr <;> simp_all [get_fp]
  · intro hcv
    cases cv <;> simp_all [get_fp]
  · rintro ⟨i2, cv2, sr2, fid2, cnf2⟩ h2 hcv hsr hcv2
    cases sr <;> cases cv2 <;> simp_all [get_fp]

theorem verify_outcomes_witness :
    get_fp ⟨[Status.ok], Status.ok, Status.err, 0, 0⟩
      = some (none, ["No Match Found"]) :=
  (verify_outcomes ⟨[Status.ok], Status.ok, Status.err, 0, 0⟩
      (by decide)).2.1 rfl (by decide)

theorem captureLoop_replicate_err (n : Nat) :
    captureLoop (List.replicate n Status.err) = false := by
  induction n with
  | zero => rfl
  | succ n ih => simpa [List.replicate_succ, captureLoop] using ih

/-- Claim C8, counterexample: the fingerprint image-capture polling is not
governed by any timeout — with no finger ever presented (every `get_image`
probe fails) there is no finite number of probes after which `enroll_fp` or
`get_fp` returns: the `while fpm.get_image() != adafp.OK: pass` loop is
still spinning after arbitrarily many iterations. -/
theorem capture_timeout_counterexample :
    (¬ ∃ n : Nat, (enroll_fp 1 ⟨List.replicate n Status.err, Status.ok,
        [Status.ok], Status.ok, Status.ok, Status.ok⟩).isSome = true) ∧
    (¬ ∃ n : Nat, (get_fp ⟨List.replicate n Status.err, Status.ok,
        Status.ok, 3, 77⟩).isSome = true) := by
  constructor
  · rintro ⟨n, hn⟩
    simp [enroll_fp, captureLoop_replicate_err] at hn
  · rintro ⟨n, hn⟩
    simp [get_fp, captureLoop_replicate_err] at hn

/-- Claim C8, amended: the fingerprint image-capture polling in `enroll_fp`
and `get_fp` is an unbounded retry loop with no timeout: when no finger is
presented — every `get_image` probe fails — the operation never completes,
however long it runs; a timeout bound exists only in the token operations
(hardcoded 30 seconds), not in the fingerprint ones. -/
theorem capture_unbounded (n fp_id : Nat) (c1 c2 cr st : Status)
    (i2 : List Status) (cf sr : Status) (fid cnf : Nat) :
    enroll_fp fp_id ⟨List.replicate n Status.err, c1, i2, c2, cr, st⟩
      = none ∧
    get_fp ⟨List.replicate n Status.err, cf, sr, fid, cnf⟩ = none := by
  constructor <;> simp [enroll_fp, get_fp, captureLoop_replicate_err]
